import Mathlib

/-!
Verification of the documentation compliance checker `analyze_guides.py`.

The script is a sequence of pure string and pattern presence checks over file
contents, plus a classification loop.  We embed the content-level functions
(`analyze_mdx_file`, `is_simple_connect_guide`) and the bucketing loop of
`main` shallowly: file reads become an `Except String String` value carried by
each file record, and an uncaught Python exception (an `UnboundLocalError`
caused by referencing a never-assigned local variable) is modelled as an
`Except.error` outcome of the whole call.
-/

set_option autoImplicit false

namespace AnalyzeGuides

/-- Python whitespace class `\s` restricted to ASCII: space, tab, newline,
carriage return, vertical tab, form feed. -/
def isSpaceChar (ch : Char) : Bool :=
  ch = Char.ofNat 32 || ch = Char.ofNat 9 || ch = Char.ofNat 10 ||
  ch = Char.ofNat 13 || ch = Char.ofNat 11 || ch = Char.ofNat 12

/-- The character class of the regexes of lines 25 and 32: a double or a
single quote. -/
def isQuoteChar (ch : Char) : Bool :=
  ch = Char.ofNat 34 || ch = Char.ofNat 39

/-- Substring test over character lists, modelling the Python `in` operator
on strings: some suffix of the haystack starts with the needle. -/
def containsSub : List Char → List Char → Bool
  | [], n => n.isEmpty
  | a :: t, n => n.isPrefixOf (a :: t) || containsSub t n

/-- Index of the first occurrence of the needle in the haystack, if any. -/
def findSub : List Char → List Char → Option Nat
  | [], n => if n.isEmpty then some 0 else none
  | a :: t, n =>
    if n.isPrefixOf (a :: t) then some 0 else (findSub t n).map (fun i => i + 1)

/-- Fuel-driven scan implementing the non-overlapping occurrence count of
Python `str.count`: after a hit the scan resumes past the matched slice. -/
def countAux : Nat → List Char → List Char → Nat
  | 0, _, _ => 0
  | Nat.succ fuel, h, n =>
    if n.isPrefixOf h then 1 + countAux fuel (h.drop n.length) n
    else
      match h with
      | [] => 0
      | _ :: t => countAux fuel t n

/-- Python `h.count(n)` on strings.  A fuel of `length + 1` is enough: every
scan step discards at least one character of the haystack, plus one final
step on the empty rest. -/
def pyCountS (h n : String) : Nat :=
  if n.data.isEmpty then h.data.length + 1 else countAux (h.data.length + 1) h.data n.data

/-- Python `n in h` on strings. -/
def hasSubstrS (h n : String) : Bool :=
  containsSub h.data n.data

/-- Python `s.startswith(p)`. -/
def startsWithS (s p : String) : Bool :=
  p.data.isPrefixOf s.data

/-- The anchored frontmatter pattern of line 18,
`re.match(r'^---\n(.*?)\n---', content, re.DOTALL)`: the content must begin
with the opening marker line, and the (lazy, hence shortest) group runs up to
the first later occurrence of a newline followed by the closing marker. -/
def frontmatterMatch (c : List Char) : Option (List Char) :=
  if ("---\n").data.isPrefixOf c then
    (findSub (c.drop 4) ("\n---").data).map (fun i => (c.drop 4).take i)
  else none

/-- String-level wrapper of `frontmatterMatch`. -/
def frontmatterMatchS (c : String) : Option String :=
  (frontmatterMatch c.data).map (fun l => String.mk l)

/-- The tail of the field regexes of lines 25 and 32 after the literal key:
greedy `\s*`, one opening quote, a non-empty maximal run of non-quote
characters as the captured group, and one closing quote.  Both quote kinds
are accepted at either end and need not agree, exactly as in the character
classes of the regex. -/
def quotedValue (c : List Char) : Option (List Char) :=
  match c.dropWhile isSpaceChar with
  | [] => none
  | q :: rest =>
    if isQuoteChar q then
      let val := rest.takeWhile (fun ch => !(isQuoteChar ch))
      if val.isEmpty then none
      else if (rest.drop val.length).isEmpty then none
      else some val
    else none

/-- Leftmost-match search of `re.search` for a pattern `key` followed by a
quoted value: positions are tried left to right, and at each position the
remainder of the pattern is deterministic (no backtracking can help, since a
quote is neither whitespace nor a member of the value class). -/
def searchKeyed (key : List Char) : List Char → Option (List Char)
  | [] => none
  | a :: t =>
    match (if key.isPrefixOf (a :: t) then quotedValue ((a :: t).drop key.length) else none) with
    | some v => some v
    | none => searchKeyed key t

/-- String-level wrapper of `searchKeyed`. -/
def searchKeyedS (key fm : String) : Option String :=
  (searchKeyed key.data fm.data).map (fun l => String.mk l)

/-- An uncaught Python exception.  The script can only die from referencing
a local variable that was never assigned on the taken path. -/
inductive PyError where
  | unboundLocal (name : String)
deriving DecidableEq

/-- The exact footer import line required by line 42. -/
def footer_import : String :=
  "import IntegrationFooter from \"/snippets/integration-footer.mdx\""

/-- Checks 4 to 10 of `analyze_mdx_file` (lines 41 to 70): presence checks
that do not depend on the frontmatter, plus the linking-section check that
runs only when a title was extracted (`if title_match:` of line 58). -/
def restChecks (content : String) (title_match : Option String) : List String :=
  (if hasSubstrS content footer_import then [] else ["Missing IntegrationFooter import"]) ++
  (if hasSubstrS content ("<Warning>") then [] else ["Missing Warning section"]) ++
  (if hasSubstrS content ("<Steps>") then [] else ["Missing Steps component"]) ++
  (if hasSubstrS content ("<IntegrationFooter />") then [] else ["Missing IntegrationFooter component"]) ++
  (match title_match with
   | none => []
   | some provider =>
     if !(hasSubstrS content ("## Linking your " ++ provider ++ " Account"))
        && !(hasSubstrS content ("## Linking your Account"))
        && !(hasSubstrS content ("## Connecting to StackOne"))
        && !(hasSubstrS content ("## Connect with StackOne"))
        && !(hasSubstrS content ("## Connecting with StackOne"))
     then ["Missing \x27Linking your " ++ provider ++ " Account\x27 section"]
     else []) ++
  (if hasSubstrS content ("## Available data") then [] else ["Missing \x27Available data\x27 section"]) ++
  (if hasSubstrS content ("## Useful Links") then [] else ["Missing \x27Useful Links\x27 section (recommended)"])

/-- `analyze_mdx_file` (lines 6 to 72).  The argument is the outcome of the
file read of lines 10 to 15; a read failure yields the single synthetic
issue of line 14.  Two paths of the Python function reference a local
variable on a path where it was never assigned and hence raise an
`UnboundLocalError` instead of returning:
`title_match` at line 58 when the frontmatter is missing, and `title` at
line 37 when the title is missing but a quoted description is present. -/
def analyze_mdx_file (readResult : Except String String) : Except PyError (List String) :=
  match readResult with
  | Except.error e => Except.ok ["Could not read file: " ++ e]
  | Except.ok content =>
    match frontmatterMatchS content with
    | none => Except.error (PyError.unboundLocal ("title_match"))
    | some frontmatter =>
      let title_match := searchKeyedS ("title:") frontmatter
      let titleIssues : List String :=
        match title_match with
        | none => ["Missing or incorrectly formatted title"]
        | some _ => []
      match searchKeyedS ("description:") frontmatter with
      | none =>
        Except.ok (titleIssues ++ ["Missing description"] ++ restChecks content title_match)
      | some desc =>
        match title_match with
        | none => Except.error (PyError.unboundLocal ("title"))
        | some title =>
          let expected := "Follow these steps to connect " ++ title ++ " via the StackOne Hub successfully."
          let descIssues : List String :=
            if desc ≠ expected ∧ startsWithS desc ("Follow these steps to connect") = false then
              ["Incorrect description format. Expected: \x27" ++ expected ++ "\x27, Got: \x27" ++ desc ++ "\x27"]
            else []
          Except.ok (titleIssues ++ descIssues ++ restChecks content (some title))

/-- The short-guide phrases of lines 83 to 87. -/
def simple_phrases : List String :=
  ["Click Connect Account", "In the modal, click the Connect button", "Click the Connect button"]

/-- The authentication keywords of line 95. -/
def auth_keywords : List String :=
  ["API Key", "Client ID", "Client Secret", "OAuth", "Token", "Credentials"]

/-- `is_simple_connect_guide` (lines 74 to 99): an unreadable file is never
simple; more than three occurrences of the step marker make the guide not
simple; otherwise the guide is simple exactly when some short-guide phrase
occurs and no authentication keyword occurs. -/
def is_simple_connect_guide (readResult : Except String String) : Bool :=
  match readResult with
  | Except.error _ => false
  | Except.ok content =>
    if pyCountS content ("<Step") > 3 then false
    else if simple_phrases.any (fun p => hasSubstrS content p) then
      if auth_keywords.any (fun k => hasSubstrS content k) then false
      else true
    else false

instance instDecEqExcept {ε α : Type} [DecidableEq ε] [DecidableEq α] :
    DecidableEq (Except ε α) := fun x y =>
  match x, y with
  | Except.error a, Except.error b =>
    match decEq a b with
    | isTrue h => isTrue (congrArg Except.error h)
    | isFalse h => isFalse (fun hc => h (Except.error.inj hc))
  | Except.error _, Except.ok _ => isFalse (fun hc => Except.noConfusion hc)
  | Except.ok _, Except.error _ => isFalse (fun hc => Except.noConfusion hc)
  | Except.ok a, Except.ok b =>
    match decEq a b with
    | isTrue h => isTrue (congrArg Except.ok h)
    | isFalse h => isFalse (fun hc => h (Except.ok.inj hc))

/-- A candidate documentation file: its path and the outcome of reading it. -/
structure MdxFile where
  path : String
  readResult : Except String String
deriving DecidableEq

/-- The three buckets built by `main` (lines 113 to 134): excluded simple
connect guides, compliant files, and non-compliant files each with its
issue list. -/
structure Report where
  excluded : List MdxFile
  compliant : List MdxFile
  nonCompliant : List (MdxFile × List String)
deriving DecidableEq

/-- The classification loop of `main` (lines 117 to 134) over the sorted
candidate list.  A file classified simple is excluded and skipped; otherwise
it is analyzed, and an empty issue list sends it to the compliant bucket
while a non-empty one sends it, with its issues, to the non-compliant
bucket.  An uncaught exception raised while analyzing a file aborts the
whole run, so no report is produced in that case. -/
def processFiles : List MdxFile → Except PyError Report
  | [] => Except.ok ⟨[], [], []⟩
  | f :: fs =>
    if is_simple_connect_guide f.readResult then
      match processFiles fs with
      | Except.error e => Except.error e
      | Except.ok r => Except.ok ⟨f :: r.excluded, r.compliant, r.nonCompliant⟩
    else
      match analyze_mdx_file f.readResult with
      | Except.error e => Except.error e
      | Except.ok issues =>
        match processFiles fs with
        | Except.error e => Except.error e
        | Except.ok r =>
          if issues.isEmpty then Except.ok ⟨r.excluded, f :: r.compliant, r.nonCompliant⟩
          else Except.ok ⟨r.excluded, r.compliant, (f, issues) :: r.nonCompliant⟩

/-! Sample inputs used by witnesses and counterexamples. -/

/-- Sample content with no frontmatter block. -/
def noFrontmatterContent : String := "# Hello"

/-- Sample content whose frontmatter has a quoted description but no quoted
title field. -/
def noTitleContent : String := "---\ndescription: \"Hello\"\n---"

/-- Sample unreadable file. -/
def badFile : MdxFile := ⟨"bad.mdx", Except.error ("boom")⟩

/-- Sample content with one wrapper tag and three step tags, a short-guide
phrase, and no authentication keyword: the count of the step marker is four
because the wrapper itself is counted. -/
def fourStepContent : String :=
  "<Steps>\n<Step>a</Step>\n<Step>b</Step>\n<Step>c</Step>\n</Steps>\nClick Connect Account\n"

/-- Sample content with a short-guide phrase and the word token in lower
case only. -/
def lowercaseTokenContent : String := "Click Connect Account and enter your token"

/-- Sample content whose description matches neither the template nor the
prefix. -/
def wrongDescContent : String := "---\ntitle: \"Acme\"\ndescription: \"Wrong one\"\n---"

/-- Frontmatter extracted from `wrongDescContent`. -/
def wrongDescFm : String := "title: \"Acme\"\ndescription: \"Wrong one\""

/-- Sample content satisfying every check except the useful-links one. -/
def acmeContent : String :=
  "---\ntitle: \"Acme\"\ndescription: \"Follow these steps to connect Acme via the StackOne Hub successfully.\"\n---\n\nimport IntegrationFooter from \"/snippets/integration-footer.mdx\"\n\n<Warning>\nBe careful.\n</Warning>\n\n<Steps>\nDo it.\n</Steps>\n\n## Linking your Acme Account\n\n## Available data\n\n<IntegrationFooter />\n"

/-- Frontmatter extracted from `acmeContent`. -/
def acmeFm : String :=
  "title: \"Acme\"\ndescription: \"Follow these steps to connect Acme via the StackOne Hub successfully.\""

/-- The file record carrying `acmeContent`. -/
def acmeFile : MdxFile := ⟨"acme.mdx", Except.ok acmeContent⟩

/-- A file whose content has no frontmatter: analyzing it raises the
uncaught error of line 58, so a run containing it aborts and produces no
buckets at all. -/
def brokenFile : MdxFile := ⟨"broken.mdx", Except.ok ("No frontmatter here")⟩

/-- A readable simple connect guide file. -/
def simpleFile : MdxFile := ⟨"simple.mdx", Except.ok ("Click Connect Account")⟩

/-! Helper lemmas about the string primitives. -/

theorem data_append_eq (s t : String) : (s ++ t).data = s.data ++ t.data := by
  cases s
  cases t
  rfl

theorem isPrefixOf_append_self (n post : List Char) : n.isPrefixOf (n ++ post) = true := by
  induction n with
  | nil => simp
  | cons a t ih => simp [ List.isPrefixOf, ih]

theorem containsSub_append (pre n post : List Char) :
    containsSub (pre ++ (n ++ post)) n = true := by
  induction pre with
  | nil =>
    cases n with
    | nil =>
      cases post with
      | nil => rfl
      | cons b bs => simp [containsSub, List.isPrefixOf]
    | cons a as => simp [containsSub, isPrefixOf_append_self]
  | cons a pre ih => simp [containsSub, ih]

/-- Claim C1: on content with no frontmatter block, the checker appends the
issue Missing frontmatter but then, at the linking-section check of line 58,
references the local variable title_match that was never assigned on this
path, so the call raises an UnboundLocalError instead of returning the issue
list.  The claim describes the clearly intended behaviour; the code crashes. -/
theorem analyze_missing_frontmatter_crashes (c : String)
    (h : frontmatterMatchS c = none) :
    analyze_mdx_file (Except.ok c) = Except.error (PyError.unboundLocal ("title_match")) := by
  simp [analyze_mdx_file, h]

/-- Witness for `analyze_missing_frontmatter_crashes` at a concrete content. -/
theorem analyze_missing_frontmatter_crashes_witness :
    frontmatterMatchS noFrontmatterContent = none ∧
      analyze_mdx_file (Except.ok noFrontmatterContent) =
        Except.error (PyError.unboundLocal ("title_match")) :=
  ⟨by decide, analyze_missing_frontmatter_crashes noFrontmatterContent (by decide)⟩

/-- Claim C2: on content whose frontmatter lacks a quoted non-empty title
while containing a quoted description, the checker records the title issue
but then, while building the expected description at line 37, references the
local variable title that was never assigned, so the call raises an
UnboundLocalError instead of running the later checks.  The claim describes
the clearly intended no-early-exit behaviour; the code crashes. -/
theorem analyze_missing_title_with_description_crashes (c fm d : String)
    (hfm : frontmatterMatchS c = some fm)
    (ht : searchKeyedS ("title:") fm = none)
    (hd : searchKeyedS ("description:") fm = some d) :
    analyze_mdx_file (Except.ok c) = Except.error (PyError.unboundLocal ("title")) := by
  simp [analyze_mdx_file, hfm, ht, hd]

/-- Witness for `analyze_missing_title_with_description_crashes` at a
concrete content. -/
theorem analyze_missing_title_with_description_crashes_witness :
    frontmatterMatchS noTitleContent = some ("description: \"Hello\"") ∧
      analyze_mdx_file (Except.ok noTitleContent) =
        Except.error (PyError.unboundLocal ("title")) :=
  ⟨by decide,
    analyze_missing_title_with_description_crashes noTitleContent
      ("description: \"Hello\"") ("Hello") (by decide) (by decide) (by decide)⟩

/-- Claim C7: a file whose content cannot be read yields the singleton
synthetic issue of line 14, and the classification loop places it in the
non-compliant bucket with that one issue and keeps going: the buckets of the
remaining files are untouched and the run does not abort. -/
theorem unreadable_file_noncompliant (f : MdxFile) (e : String)
    (hread : f.readResult = Except.error e)
    (fs : List MdxFile) (r : Report)
    (hrest : processFiles fs = Except.ok r) :
    analyze_mdx_file f.readResult = Except.ok ["Could not read file: " ++ e] ∧
      processFiles (f :: fs) =
        Except.ok ⟨r.excluded, r.compliant,
          (f, ["Could not read file: " ++ e]) :: r.nonCompliant⟩ := by
  have ha : analyze_mdx_file f.readResult = Except.ok ["Could not read file: " ++ e] := by
    rw [hread]
    rfl
  have hs : is_simple_connect_guide f.readResult = false := by
    rw [hread]
    rfl
  exact ⟨ha, by simp [processFiles, hs, ha, hrest]⟩

/-- Witness for `unreadable_file_noncompliant` at a concrete file. -/
theorem unreadable_file_noncompliant_witness :
    analyze_mdx_file badFile.readResult = Except.ok ["Could not read file: " ++ "boom"] ∧
      processFiles [badFile] =
        Except.ok ⟨[], [], [(badFile, ["Could not read file: " ++ "boom"])]⟩ :=
  unreadable_file_noncompliant badFile ("boom") rfl [] ⟨[], [], []⟩ rfl

/-- Claim C8: the checker is deterministic; two evaluations on the same
content that return issue lists return the same issue list, with the same
elements in the same order.  The embedded checker is a pure function of the
content, mirroring the absence of hidden state in the Python code. -/
theorem analyze_deterministic (c : String) (iss1 iss2 : List String)
    (h1 : analyze_mdx_file (Except.ok c) = Except.ok iss1)
    (h2 : analyze_mdx_file (Except.ok c) = Except.ok iss2) :
    iss1 = iss2 := by
  rw [h1] at h2
  exact Except.ok.inj h2

set_option maxRecDepth 100000 in
/-- Witness for `analyze_deterministic` at a concrete content. -/
theorem analyze_deterministic_witness :
    (["Missing \x27Useful Links\x27 section (recommended)"] : List String) =
      ["Missing \x27Useful Links\x27 section (recommended)"] :=
  analyze_deterministic acmeContent
    ["Missing \x27Useful Links\x27 section (recommended)"]
    ["Missing \x27Useful Links\x27 section (recommended)"]
    (by decide) (by decide)

/-- Claim C9: the step-marker count of line 90 counts occurrences of the
bare substring of the opening step tag, which the wrapper tag also contains;
whenever the count reaches four the classifier answers not simple, even with
a short-guide phrase present and no authentication keyword. -/
theorem step_marker_count_four_not_simple (c : String)
    (hcount : pyCountS c ("<Step") = 4)
    (_hphrase : ∃ p ∈ simple_phrases, hasSubstrS c p = true)
    (_hauth : ∀ k ∈ auth_keywords, hasSubstrS c k = false) :
    is_simple_connect_guide (Except.ok c) = false := by
  simp [is_simple_connect_guide, hcount]

/-- Witness for `step_marker_count_four_not_simple` at a concrete content. -/
theorem step_marker_count_four_not_simple_witness :
    pyCountS fourStepContent ("<Step") = 4 ∧
      is_simple_connect_guide (Except.ok fourStepContent) = false :=
  ⟨by decide,
    step_marker_count_four_not_simple fourStepContent (by decide) (by decide) (by decide)⟩

/-- Claim C10: authentication-keyword detection is case-sensitive exact
substring matching; a content with a short-guide phrase, at most three step
markers, and the word token only in lower case is classified simple. -/
theorem lowercase_token_classified_simple :
    hasSubstrS lowercaseTokenContent ("Click Connect Account") = true ∧
      pyCountS lowercaseTokenContent ("<Step") ≤ 3 ∧
      hasSubstrS lowercaseTokenContent ("token") = true ∧
      hasSubstrS lowercaseTokenContent ("Token") = false ∧
      is_simple_connect_guide (Except.ok lowercaseTokenContent) = true := by
  decide

/-- The first branch of the classifier as a boolean combination: an `if`
chain of its shape equals a conjunction. -/
theorem if_chain_eq (p : Prop) [Decidable p] (b c : Bool) :
    (if p then false else if b then (if c then false else true) else false) =
      (!(decide p) && (b && !c)) := by
  by_cases hp : p
  · simp [hp]
  · cases b <;> cases c <;> simp [hp]

/-- The classifier on readable content, written as one boolean formula. -/
theorem is_simple_connect_guide_eq (c : String) :
    is_simple_connect_guide (Except.ok c) =
      (decide (pyCountS c ("<Step") ≤ 3) &&
        ((hasSubstrS c ("Click Connect Account") ||
            (hasSubstrS c ("In the modal, click the Connect button") ||
              hasSubstrS c ("Click the Connect button"))) &&
          !(hasSubstrS c ("API Key") ||
              (hasSubstrS c ("Client ID") ||
                (hasSubstrS c ("Client Secret") ||
                  (hasSubstrS c ("OAuth") ||
                    (hasSubstrS c ("Token") || hasSubstrS c ("Credentials")))))))) := by
  have hd : (!(decide (pyCountS c ("<Step") > 3))) = decide (pyCountS c ("<Step") ≤ 3) := by
    rw [← decide_not]
    exact decide_eq_decide.mpr Nat.not_lt
  simp only [is_simple_connect_guide, simple_phrases, auth_keywords, List.any_cons,
    List.any_nil, Bool.or_false]
  rw [if_chain_eq, hd]

/-- Claim C4: the classifier answers simple exactly when the step-marker
count is at most three, some fixed short-guide phrase occurs, and no fixed
authentication keyword occurs. -/
theorem is_simple_connect_guide_iff (c : String) :
    is_simple_connect_guide (Except.ok c) = true ↔
      pyCountS c ("<Step") ≤ 3 ∧
        (hasSubstrS c ("Click Connect Account") = true ∨
          hasSubstrS c ("In the modal, click the Connect button") = true ∨
          hasSubstrS c ("Click the Connect button") = true) ∧
        hasSubstrS c ("API Key") = false ∧ hasSubstrS c ("Client ID") = false ∧
        hasSubstrS c ("Client Secret") = false ∧ hasSubstrS c ("OAuth") = false ∧
        hasSubstrS c ("Token") = false ∧ hasSubstrS c ("Credentials") = false := by
  rw [is_simple_connect_guide_eq]
  simp only [Bool.and_eq_true, Bool.or_eq_true, Bool.not_eq_true', Bool.or_eq_false_iff,
    decide_eq_true_eq]

/-- Claim C6: when a title and a quoted description are both extracted and
the description neither equals the canonical template nor starts with the
required prefix, the checker returns an issue list containing an issue whose
text contains both the expected canonical description and the actual
description verbatim. -/
theorem incorrect_description_issue_names_both (c fm title desc : String)
    (hfm : frontmatterMatchS c = some fm)
    (ht : searchKeyedS ("title:") fm = some title)
    (hd : searchKeyedS ("description:") fm = some desc)
    (hne : desc ≠ "Follow these steps to connect " ++ title ++ " via the StackOne Hub successfully.")
    (hpfx : startsWithS desc ("Follow these steps to connect") = false) :
    ∃ iss : List String, analyze_mdx_file (Except.ok c) = Except.ok iss ∧
      ∃ s ∈ iss,
        hasSubstrS s ("Follow these steps to connect " ++ title ++
          " via the StackOne Hub successfully.") = true ∧
        hasSubstrS s desc = true := by
  have hres : analyze_mdx_file (Except.ok c) =
      Except.ok (("Incorrect description format. Expected: \x27" ++
          ("Follow these steps to connect " ++ title ++ " via the StackOne Hub successfully.") ++
          "\x27, Got: \x27" ++ desc ++ "\x27") :: restChecks c (some title)) := by
    simp only [analyze_mdx_file, hfm, ht, hd]
    rw [if_pos ⟨hne, hpfx⟩]
    simp
  refine ⟨_, hres, _, List.mem_cons_self _ _, ?_, ?_⟩
  · have key := containsSub_append
      (("Incorrect description format. Expected: \x27").data)
      (("Follow these steps to connect " ++ title ++ " via the StackOne Hub successfully.").data)
      (("\x27, Got: \x27").data ++ (desc.data ++ ("\x27").data))
    simp only [hasSubstrS, data_append_eq, List.append_assoc] at key ⊢
    exact key
  · have key := containsSub_append
      (("Incorrect description format. Expected: \x27" ++
        ("Follow these steps to connect " ++ title ++ " via the StackOne Hub successfully.") ++
        "\x27, Got: \x27").data)
      (desc.data)
      (("\x27").data)
    simp only [hasSubstrS, data_append_eq, List.append_assoc] at key ⊢
    exact key

/-- Witness for `incorrect_description_issue_names_both` at a concrete
content. -/
theorem incorrect_description_issue_names_both_witness :
    ∃ iss : List String, analyze_mdx_file (Except.ok wrongDescContent) = Except.ok iss ∧
      ∃ s ∈ iss,
        hasSubstrS s ("Follow these steps to connect " ++ "Acme" ++
          " via the StackOne Hub successfully.") = true ∧
        hasSubstrS s ("Wrong one") = true :=
  incorrect_description_issue_names_both wrongDescContent wrongDescFm ("Acme") ("Wrong one")
    (by decide) (by decide) (by decide) (by decide) (by decide)

/-- Claim C5: content whose frontmatter yields title Acme and the canonical
description and which contains the footer import, the warning tag, the steps
tag, the footer component, the Acme linking heading and the available-data
heading, but not the useful-links heading, gets exactly the single
recommended useful-links issue; and a non-excluded file with that content is
placed in the non-compliant bucket with that issue, so the recommended issue
is disqualifying. -/
theorem acme_template_single_recommended_issue (c fm : String)
    (hfm : frontmatterMatchS c = some fm)
    (ht : searchKeyedS ("title:") fm = some ("Acme"))
    (hd : searchKeyedS ("description:") fm =
      some ("Follow these steps to connect Acme via the StackOne Hub successfully."))
    (h4 : hasSubstrS c footer_import = true)
    (h5 : hasSubstrS c ("<Warning>") = true)
    (h6 : hasSubstrS c ("<Steps>") = true)
    (h7 : hasSubstrS c ("<IntegrationFooter />") = true)
    (h8 : hasSubstrS c ("## Linking your Acme Account") = true)
    (h9 : hasSubstrS c ("## Available data") = true)
    (h10 : hasSubstrS c ("## Useful Links") = false) :
    analyze_mdx_file (Except.ok c) =
        Except.ok ["Missing \x27Useful Links\x27 section (recommended)"] ∧
      ∀ (f : MdxFile) (rest : List MdxFile) (r : Report),
        f.readResult = Except.ok c →
        is_simple_connect_guide f.readResult = false →
        processFiles (f :: rest) = Except.ok r →
        (f, ["Missing \x27Useful Links\x27 section (recommended)"]) ∈ r.nonCompliant := by
  have hlink : ("## Linking your " ++ "Acme" ++ " Account" : String) =
      "## Linking your Acme Account" := by decide
  have hres : analyze_mdx_file (Except.ok c) =
      Except.ok ["Missing \x27Useful Links\x27 section (recommended)"] := by
    simp only [analyze_mdx_file, hfm, ht, hd]
    rw [if_neg (fun hcon => hcon.1 (by decide))]
    simp only [restChecks, hlink, h4, h5, h6, h7, h8, h9, h10]
    simp
  refine ⟨hres, ?_⟩
  intro f rest r hread hns hrun
  simp only [processFiles] at hrun
  rw [if_neg (by rw [hns]; exact Bool.false_ne_true), hread, hres] at hrun
  cases hrest : processFiles rest with
  | error e =>
    rw [hrest] at hrun
    exact Except.noConfusion hrun
  | ok r0 =>
    rw [hrest] at hrun
    simp only [List.isEmpty_cons, if_false, Bool.false_eq_true] at hrun
    injection hrun with hrun
    subst hrun
    exact List.mem_cons_self _ _

set_option maxRecDepth 100000 in
/-- Witness for `acme_template_single_recommended_issue` at a concrete
content and run. -/
theorem acme_template_single_recommended_issue_witness :
    analyze_mdx_file (Except.ok acmeContent) =
        Except.ok ["Missing \x27Useful Links\x27 section (recommended)"] ∧
      (acmeFile, ["Missing \x27Useful Links\x27 section (recommended)"]) ∈
        (⟨[], [],
          [(acmeFile, ["Missing \x27Useful Links\x27 section (recommended)"])]⟩ :
            Report).nonCompliant := by
  have h := acme_template_single_recommended_issue acmeContent acmeFm
    (by decide) (by decide) (by decide) (by decide) (by decide) (by decide)
    (by decide) (by decide) (by decide) (by decide)
  exact ⟨h.1, h.2 acmeFile [] _ rfl (by decide) (by decide)⟩

/-- Membership characterization of the three buckets of a run that
completed without an uncaught error: a file is excluded exactly when it was
scanned and classified simple, compliant exactly when it was scanned, not
simple and analyzed to an empty issue list, and non-compliant with issues
`iss` exactly when it was scanned, not simple and analyzed to the non-empty
list `iss`; moreover every scanned non-simple file was analyzed
successfully. -/
theorem processFiles_mem (fs : List MdxFile) (r : Report)
    (h : processFiles fs = Except.ok r) (f : MdxFile) :
    (f ∈ r.excluded ↔ f ∈ fs ∧ is_simple_connect_guide f.readResult = true) ∧
    (f ∈ r.compliant ↔ f ∈ fs ∧ is_simple_connect_guide f.readResult = false ∧
      analyze_mdx_file f.readResult = Except.ok []) ∧
    (∀ iss : List String, (f, iss) ∈ r.nonCompliant ↔ f ∈ fs ∧
      is_simple_connect_guide f.readResult = false ∧ iss ≠ [] ∧
      analyze_mdx_file f.readResult = Except.ok iss) ∧
    (f ∈ fs → is_simple_connect_guide f.readResult = false →
      ∃ iss, analyze_mdx_file f.readResult = Except.ok iss) := by
  induction fs generalizing r with
  | nil =>
    simp only [processFiles] at h
    injection h with h
    subst h
    simp
  | cons g gs ih =>
    simp only [processFiles] at h
    cases hg : is_simple_connect_guide g.readResult with
    | true =>
      rw [if_pos hg] at h
      cases hrest : processFiles gs with
      | error e =>
        rw [hrest] at h
        exact Except.noConfusion h
      | ok r0 =>
        rw [hrest] at h
        injection h with h
        subst h
        obtain ⟨e1, e2, e3, e4⟩ := ih r0 hrest
        refine ⟨?_, ?_, ?_, ?_⟩
        · simp only [List.mem_cons, e1]
          constructor
          · rintro (rfl | ⟨hm, hs⟩)
            · exact ⟨Or.inl rfl, hg⟩
            · exact ⟨Or.inr hm, hs⟩
          · rintro ⟨rfl | hm, hs⟩
            · exact Or.inl rfl
            · exact Or.inr ⟨hm, hs⟩
        · simp only [List.mem_cons, e2]
          constructor
          · rintro ⟨hm, hs, ha⟩
            exact ⟨Or.inr hm, hs, ha⟩
          · rintro ⟨rfl | hm, hs, ha⟩
            · rw [hg] at hs
              exact Bool.noConfusion hs
            · exact ⟨hm, hs, ha⟩
        · intro iss
          simp only [List.mem_cons, e3]
          constructor
          · rintro ⟨hm, hb⟩
            exact ⟨Or.inr hm, hb⟩
          · rintro ⟨rfl | hm, hs, hne, ha⟩
            · rw [hg] at hs
              exact Bool.noConfusion hs
            · exact ⟨hm, hs, hne, ha⟩
        · simp only [List.mem_cons]
          rintro (rfl | hm) hs
          · rw [hg] at hs
            exact Bool.noConfusion hs
          · exact e4 hm hs
    | false =>
      rw [if_neg (by rw [hg]; exact Bool.false_ne_true)] at h
      cases hA : analyze_mdx_file g.readResult with
      | error e =>
        rw [hA] at h
        exact Except.noConfusion h
      | ok issues =>
        rw [hA] at h
        cases hrest : processFiles gs with
        | error e =>
          rw [hrest] at h
          exact Except.noConfusion h
        | ok r0 =>
          rw [hrest] at h
          obtain ⟨e1, e2, e3, e4⟩ := ih r0 hrest
          cases issues with
          | nil =>
            simp only [List.isEmpty_nil, if_true] at h
            injection h with h
            subst h
            refine ⟨?_, ?_, ?_, ?_⟩
            · simp only [List.mem_cons, e1]
              constructor
              · rintro ⟨hm, hs⟩
                exact ⟨Or.inr hm, hs⟩
              · rintro ⟨rfl | hm, hs⟩
                · rw [hg] at hs
                  exact Bool.noConfusion hs
                · exact ⟨hm, hs⟩
            · simp only [List.mem_cons, e2]
              constructor
              · rintro (rfl | ⟨hm, hs, ha⟩)
                · exact ⟨Or.inl rfl, hg, hA⟩
                · exact ⟨Or.inr hm, hs, ha⟩
              · rintro ⟨rfl | hm, hs, ha⟩
                · exact Or.inl rfl
                · exact Or.inr ⟨hm, hs, ha⟩
            · intro iss
              simp only [List.mem_cons, e3]
              constructor
              · rintro ⟨hm, hb⟩
                exact ⟨Or.inr hm, hb⟩
              · rintro ⟨rfl | hm, hs, hne, ha⟩
                · rw [hA] at ha
                  injection ha with ha
                  exact absurd ha.symm hne
                · exact ⟨hm, hs, hne, ha⟩
            · simp only [List.mem_cons]
              rintro (rfl | hm) hs
              · exact ⟨[], hA⟩
              · exact e4 hm hs
          | cons i tl =>
            simp only [List.isEmpty_cons, Bool.false_eq_true, if_false] at h
            injection h with h
            subst h
            refine ⟨?_, ?_, ?_, ?_⟩
            · simp only [List.mem_cons, e1]
              constructor
              · rintro ⟨hm, hs⟩
                exact ⟨Or.inr hm, hs⟩
              · rintro ⟨rfl | hm, hs⟩
                · rw [hg] at hs
                  exact Bool.noConfusion hs
                · exact ⟨hm, hs⟩
            · simp only [List.mem_cons, e2]
              constructor
              · rintro ⟨hm, hs, ha⟩
                exact ⟨Or.inr hm, hs, ha⟩
              · rintro ⟨rfl | hm, hs, ha⟩
                · rw [hA] at ha
                  injection ha with ha
                  exact List.noConfusion ha
                · exact ⟨hm, hs, ha⟩
            · intro iss
              simp only [List.mem_cons, e3]
              constructor
              · rintro (hpair | ⟨hm, hb⟩)
                · obtain ⟨rfl, rfl⟩ := Prod.mk.inj hpair
                  exact ⟨Or.inl rfl, hg, List.cons_ne_nil i tl, hA⟩
                · exact ⟨Or.inr hm, hb⟩
              · rintro ⟨rfl | hm, hs, hne, ha⟩
                · rw [hA] at ha
                  injection ha with ha
                  exact Or.inl (by rw [← ha])
                · exact Or.inr ⟨hm, hs, hne, ha⟩
            · simp only [List.mem_cons]
              rintro (rfl | hm) hs
              · exact ⟨i :: tl, hA⟩
              · exact e4 hm hs

/-- Claim C3, amended: for every run in which the per-file analysis raises
no uncaught error (so the loop returns a report), every candidate file lies
in at least one of the three buckets, only candidate files lie in the
buckets, and the three buckets are pairwise disjoint — hence each candidate
file ends up in exactly one bucket. -/
theorem run_buckets_partition (fs : List MdxFile) (r : Report)
    (h : processFiles fs = Except.ok r) (f : MdxFile) :
    ((f ∈ r.excluded ∨ f ∈ r.compliant ∨ ∃ iss, (f, iss) ∈ r.nonCompliant) ↔ f ∈ fs) ∧
    ¬(f ∈ r.excluded ∧ f ∈ r.compliant) ∧
    ¬(f ∈ r.excluded ∧ ∃ iss, (f, iss) ∈ r.nonCompliant) ∧
    ¬(f ∈ r.compliant ∧ ∃ iss, (f, iss) ∈ r.nonCompliant) := by
  obtain ⟨e1, e2, e3, e4⟩ := processFiles_mem fs r h f
  refine ⟨⟨?_, ?_⟩, ?_, ?_, ?_⟩
  · rintro (hx | hx | ⟨iss, hx⟩)
    · exact (e1.mp hx).1
    · exact (e2.mp hx).1
    · exact ((e3 iss).mp hx).1
  · intro hm
    cases hb : is_simple_connect_guide f.readResult with
    | true => exact Or.inl (e1.mpr ⟨hm, hb⟩)
    | false =>
      obtain ⟨iss, hiss⟩ := e4 hm hb
      cases iss with
      | nil => exact Or.inr (Or.inl (e2.mpr ⟨hm, hb, hiss⟩))
      | cons i tl =>
        exact Or.inr (Or.inr ⟨i :: tl,
          (e3 (i :: tl)).mpr ⟨hm, hb, List.cons_ne_nil i tl, hiss⟩⟩)
  · rintro ⟨hx, hy⟩
    have h1 := (e1.mp hx).2
    have h2 := (e2.mp hy).2.1
    rw [h1] at h2
    exact Bool.noConfusion h2
  · rintro ⟨hx, iss, hy⟩
    have h1 := (e1.mp hx).2
    have h2 := ((e3 iss).mp hy).2.1
    rw [h1] at h2
    exact Bool.noConfusion h2
  · rintro ⟨hx, iss, hy⟩
    have h2 := (e2.mp hx).2.2
    have h3 := (e3 iss).mp hy
    have ha := h3.2.2.2
    rw [h2] at ha
    injection ha with ha
    exact h3.2.2.1 ha.symm

/-- Claim C3 counterexample: a run over one candidate file that is not a
simple connect guide and has no frontmatter does not place the file in any
bucket — the whole run aborts with an uncaught UnboundLocalError and no
report exists. -/
theorem run_buckets_partition_counterexample :
    is_simple_connect_guide brokenFile.readResult = false ∧
      processFiles [brokenFile] = Except.error (PyError.unboundLocal ("title_match")) := by
  decide

/-- Witness for `run_buckets_partition` at a concrete completed run. -/
theorem run_buckets_partition_witness :
    ((simpleFile ∈ (⟨[simpleFile], [], []⟩ : Report).excluded ∨
        simpleFile ∈ (⟨[simpleFile], [], []⟩ : Report).compliant ∨
        ∃ iss, (simpleFile, iss) ∈ (⟨[simpleFile], [], []⟩ : Report).nonCompliant) ↔
      simpleFile ∈ [simpleFile]) ∧
    ¬(simpleFile ∈ (⟨[simpleFile], [], []⟩ : Report).excluded ∧
        simpleFile ∈ (⟨[simpleFile], [], []⟩ : Report).compliant) ∧
    ¬(simpleFile ∈ (⟨[simpleFile], [], []⟩ : Report).excluded ∧
        ∃ iss, (simpleFile, iss) ∈ (⟨[simpleFile], [], []⟩ : Report).nonCompliant) ∧
    ¬(simpleFile ∈ (⟨[simpleFile], [], []⟩ : Report).compliant ∧
        ∃ iss, (simpleFile, iss) ∈ (⟨[simpleFile], [], []⟩ : Report).nonCompliant) :=
  run_buckets_partition [simpleFile] ⟨[simpleFile], [], []⟩ (by decide) simpleFile

end AnalyzeGuides
